import Mathlib

/-!
Verification development for the call-transfer orchestration core of the
pipecat-examples repository.

Embedded source files:
* `phone-chatbot/daily-pstn-dial-out/bot.py` — `DialoutManager` (retry logic)
  and its event handlers (`on_joined`, `on_dialout_answered`,
  `on_dialout_error`, `on_client_disconnected`).
* `phone-chatbot/daily-pstn-warm-transfer/bot.py` — `CustomerHoldGate`,
  `BotAudioGate`, `TransferCoordinator`, `initiate_warm_transfer`, the
  transport event handlers, and the pipeline wiring.
* `phone-chatbot/daily-pstn-warm-transfer/models.py` — the data model
  (`TransferTarget`, `TransferMessages`, `WarmTransferConfig`).

Python objects become Lean structures; mutating methods become functions
from the old state to the new state paired with the list of external
commands (frames pushed, frames queued on the task, telephony start-dialout
calls, task cancellation) the method issues, in issue order.
-/

/-- A chat message as carried by `LLMMessagesAppendFrame` payloads. -/
structure ChatMessage where
  role : String
  content : String
  deriving DecidableEq, Repr

/-- `models.TransferTarget`: a single transfer destination. -/
structure TransferTarget where
  name : String
  phone_number : String
  extension : Option String
  description : String
  deriving DecidableEq, Repr

/-- `models.TransferMessages`: configurable messages for transfer states. -/
structure TransferMessages where
  hold_message : String
  transfer_failed_message : String
  connecting_message : String
  deriving DecidableEq, Repr

/-- Field defaults of `models.TransferMessages`. -/
def TransferMessages.defaults : TransferMessages where
  hold_message := "I\x27m connecting you with a specialist. Please hold."
  transfer_failed_message :=
    "I\x27m sorry, I couldn\x27t reach anyone at this time. How else can I help you?"
  connecting_message := "I have the customer ready. Let me bring them in now."

/-- `models.WarmTransferConfig`. -/
structure WarmTransferConfig where
  transfer_targets : List TransferTarget
  transfer_messages : TransferMessages
  deriving DecidableEq, Repr

/-- The first target of `models.default_transfer_config()`. -/
def salesTarget : TransferTarget where
  name := "Sales Team"
  phone_number := "+15551234567"
  extension := none
  description := "Handles sales inquiries, pricing, and new orders"

/-- The second target of `models.default_transfer_config()`. -/
def supportTarget : TransferTarget where
  name := "Support Team"
  phone_number := "+15559876543"
  extension := none
  description := "Handles technical support and troubleshooting"

/-- `models.default_transfer_config()`: default config for local testing. -/
def default_transfer_config : WarmTransferConfig where
  transfer_targets := [salesTarget, supportTarget]
  transfer_messages := TransferMessages.defaults

/-- The frames of `pipecat.frames.frames` used by the warm-transfer bot,
plus the bot's two custom control frames (`CustomerHoldFrame`,
`StartTransferFrame`).  Audio frames carry their mutable
`transport_destination` attribute. -/
inductive WFrame where
  | customerHold (on_hold : Bool)
  | startTransfer (target : TransferTarget) (summary : String)
  | botStoppedSpeaking
  | inputAudioRaw
  | userStartedSpeaking
  | userStoppedSpeaking
  | interruption
  | sttMute (mute : Bool)
  | mixerEnable (enable : Bool)
  | ttsAudioRaw (transport_destination : Option String)
  | outputAudioRaw (transport_destination : Option String)
  | llmMessagesAppend (messages : List ChatMessage) (run_llm : Bool)
  | llmRun
  deriving DecidableEq, Repr

/-- Commands issued to the outside world (frames pushed into the pipeline,
frames queued on the pipeline task, telephony start-dialout calls, task
cancellation) by the embedded components, in issue order. -/
inductive Cmd where
  | pushFrame (frame : WFrame)
  | queueFrames (frames : List WFrame)
  | startDialout (phoneNumber : String)
  | cancelTask
  deriving DecidableEq, Repr

/-- The phone numbers of the `startDialout` commands in a command list,
in order. -/
def startDialouts : List Cmd → List String
  | [] => []
  | Cmd.startDialout p :: rest => p :: startDialouts rest
  | _ :: rest => startDialouts rest

-- ------------ daily-pstn-dial-out/bot.py : DialoutManager ------------

/-- `DialoutManager` of `daily-pstn-dial-out/bot.py`: phone number plus the
retry counter and success flag. -/
structure DialoutManager where
  phone_number : String
  max_retries : Nat
  attempt_count : Nat
  is_successful : Bool
  deriving DecidableEq, Repr

/-- The default of the `max_retries` constructor argument of
`DialoutManager.__init__` (used by `run_bot`, which passes no override). -/
def DialoutManager.defaultMaxRetries : Nat := 5

/-- `DialoutManager.__init__(transport, dialout_settings)` as called in
`run_bot`: counter at zero, not successful, default retry budget. -/
def DialoutManager.init (phone : String) : DialoutManager where
  phone_number := phone
  max_retries := DialoutManager.defaultMaxRetries
  attempt_count := 0
  is_successful := false

/-- `DialoutManager.attempt_dialout`: returns the `started` flag, the
updated manager, and the telephony commands issued. -/
def DialoutManager.attempt_dialout (m : DialoutManager) :
    Bool × DialoutManager × List Cmd :=
  if m.attempt_count ≥ m.max_retries then
    (false, m, [])
  else if m.is_successful = true then
    (false, m, [])
  else
    (true, { m with attempt_count := m.attempt_count + 1 },
     [Cmd.startDialout m.phone_number])

/-- `DialoutManager.mark_successful`. -/
def DialoutManager.mark_successful (m : DialoutManager) : DialoutManager :=
  { m with is_successful := true }

/-- `DialoutManager.should_retry`. -/
def DialoutManager.should_retry (m : DialoutManager) : Bool :=
  decide (m.attempt_count < m.max_retries) && !m.is_successful

-- ------------ daily-pstn-dial-out/bot.py : event handlers ------------

/-- The transport events handled in `run_bot` of
`daily-pstn-dial-out/bot.py`. -/
inductive DEvent where
  | joined
  | dialout_answered
  | dialout_error
  | client_disconnected
  deriving DecidableEq, Repr

/-- Session state of the dial-out bot: the manager plus whether the
pipeline task has been cancelled. -/
structure DialSession where
  manager : DialoutManager
  cancelled : Bool
  deriving DecidableEq, Repr

/-- Initial session of `run_bot` (dial-out bot). -/
def DialSession.init (phone : String) : DialSession where
  manager := DialoutManager.init phone
  cancelled := false

/-- One transport event processed by the dial-out bot's handlers
(`on_joined`, `on_dialout_answered`, `on_dialout_error`,
`on_client_disconnected`).  A cancelled task receives no further events. -/
def dialoutStep (s : DialSession) (e : DEvent) : DialSession × List Cmd :=
  if s.cancelled = true then (s, []) else
  match e with
  | DEvent.joined =>
      let r := s.manager.attempt_dialout
      ({ s with manager := r.2.1 }, r.2.2)
  | DEvent.dialout_answered =>
      ({ s with manager := s.manager.mark_successful }, [])
  | DEvent.dialout_error =>
      if s.manager.should_retry = true then
        let r := s.manager.attempt_dialout
        ({ s with manager := r.2.1 }, r.2.2)
      else
        ({ s with cancelled := true }, [Cmd.cancelTask])
  | DEvent.client_disconnected =>
      ({ s with cancelled := true }, [Cmd.cancelTask])

/-- Run the dial-out bot over a list of transport events, accumulating the
issued commands. -/
def dialoutRun (s : DialSession) : List DEvent → DialSession × List Cmd
  | [] => (s, [])
  | e :: es =>
      let r1 := dialoutStep s e
      let r2 := dialoutRun r1.1 es
      (r2.1, r1.2 ++ r2.2)

-- ------------ daily-pstn-warm-transfer/bot.py : state and gates ------------

/-- `TransferState`: states in the warm transfer flow. -/
inductive TransferState where
  | TALKING_TO_CUSTOMER
  | HOLDING_CUSTOMER
  | TALKING_TO_AGENT
  | CONNECTED
  | TRANSFER_FAILED
  deriving DecidableEq, Repr

/-- The frame classes suppressed by `CustomerHoldGate` while on hold
(`InputAudioRawFrame`, `UserStartedSpeakingFrame`, `InterruptionFrame`). -/
def isCallerInputFrame : WFrame → Bool
  | WFrame.inputAudioRaw => true
  | WFrame.userStartedSpeaking => true
  | WFrame.interruption => true
  | _ => false

/-- `CustomerHoldGate.process_frame`: the gate's `_on_hold` flag plus the
incoming frame yield the new flag and the frames pushed, in order. -/
def CustomerHoldGate.process_frame (on_hold : Bool) (frame : WFrame) :
    Bool × List WFrame :=
  match frame with
  | WFrame.customerHold h =>
      (h, [WFrame.sttMute h, WFrame.customerHold h])
  | f =>
      if on_hold = true && isCallerInputFrame f then
        (on_hold, [])
      else
        (on_hold, [f])

/-- `BotAudioGate.process_frame`: routes bot audio to the agent track and
drives the hold-music mixer while on hold. -/
def BotAudioGate.process_frame (on_hold : Bool) (frame : WFrame) :
    Bool × List WFrame :=
  match frame with
  | WFrame.customerHold h =>
      (h, [WFrame.mixerEnable h, WFrame.customerHold h])
  | WFrame.ttsAudioRaw d =>
      if on_hold = true then (on_hold, [WFrame.ttsAudioRaw (some "agent")])
      else (on_hold, [WFrame.ttsAudioRaw d])
  | WFrame.outputAudioRaw d =>
      if on_hold = true then (on_hold, [WFrame.outputAudioRaw (some "agent")])
      else (on_hold, [WFrame.outputAudioRaw d])
  | f => (on_hold, [f])

-- ------------ daily-pstn-warm-transfer/bot.py : TransferCoordinator ------------

/-- The mutable fields of `TransferCoordinator`. -/
structure CoordState where
  state : TransferState
  awaiting_hold_message_completion : Bool
  awaiting_briefing_completion : Bool
  transfer_target : Option TransferTarget
  transfer_summary : Option String
  deriving DecidableEq, Repr

/-- `TransferCoordinator.__init__`. -/
def CoordState.init : CoordState where
  state := TransferState.TALKING_TO_CUSTOMER
  awaiting_hold_message_completion := false
  awaiting_briefing_completion := false
  transfer_target := none
  transfer_summary := none

/-- The first `if` block of `TransferCoordinator.process_frame`: when the
hold message has finished speaking in `HOLDING_CUSTOMER`, clear the
awaiting flag, push `CustomerHoldFrame(on_hold=True)`, and dial the stored
target (guarded by `if self._transfer_target`). -/
def TransferCoordinator.holdCompletionStep (s : CoordState) (f : WFrame) :
    CoordState × List Cmd :=
  if s.awaiting_hold_message_completion = true
      ∧ f = WFrame.botStoppedSpeaking
      ∧ s.state = TransferState.HOLDING_CUSTOMER then
    match s.transfer_target with
    | some t =>
        ({ s with awaiting_hold_message_completion := false },
         [Cmd.pushFrame (WFrame.customerHold true),
          Cmd.startDialout t.phone_number])
    | none =>
        ({ s with awaiting_hold_message_completion := false },
         [Cmd.pushFrame (WFrame.customerHold true)])
  else (s, [])

/-- The second `if` block of `TransferCoordinator.process_frame`: when the
agent briefing has finished speaking in `TALKING_TO_AGENT`, clear the
awaiting flag, push `CustomerHoldFrame(on_hold=False)`, and enter
`CONNECTED`. -/
def TransferCoordinator.briefingCompletionStep (s : CoordState) (f : WFrame) :
    CoordState × List Cmd :=
  if s.awaiting_briefing_completion = true
      ∧ f = WFrame.botStoppedSpeaking
      ∧ s.state = TransferState.TALKING_TO_AGENT then
    ({ s with awaiting_briefing_completion := false
              state := TransferState.CONNECTED },
     [Cmd.pushFrame (WFrame.customerHold false)])
  else (s, [])

/-- `TransferCoordinator.process_frame`.  A `StartTransferFrame` is handled
and forwarded with an early return; otherwise the two sequential `if`
blocks run (hold-message completion, then briefing completion, reading the
state left by the first block) and the frame is forwarded last. -/
def TransferCoordinator.process_frame (s : CoordState) (frame : WFrame) :
    CoordState × List Cmd :=
  match frame with
  | WFrame.startTransfer t summary =>
      ({ s with transfer_target := some t
                transfer_summary := some summary
                awaiting_hold_message_completion := true
                state := TransferState.HOLDING_CUSTOMER },
       [Cmd.pushFrame (WFrame.startTransfer t summary)])
  | f =>
      let r1 := TransferCoordinator.holdCompletionStep s f
      let r2 := TransferCoordinator.briefingCompletionStep r1.1 f
      (r2.1, r1.2 ++ r2.2 ++ [Cmd.pushFrame f])

/-- Python string interpolation of an `Optional[str]` (`None` renders as
the string `"None"`). -/
def interpolateOptStr : Option String → String
  | some s => s
  | none => "None"

/-- The briefing text built in `TransferCoordinator.handle_dialout_answered`
from the stored summary and the configured connecting message. -/
def briefingText (summary : Option String) (connecting_message : String) : String :=
  "A customer is on hold waiting to speak with you. Here\x27s what they need help with:\n\n"
    ++ interpolateOptStr summary ++ "\n\n" ++ connecting_message

/-- `TransferCoordinator.handle_dialout_answered`: enter
`TALKING_TO_AGENT`, await briefing completion, queue the briefing to the
LLM. -/
def TransferCoordinator.handle_dialout_answered (config : WarmTransferConfig)
    (s : CoordState) : CoordState × List Cmd :=
  ({ s with state := TransferState.TALKING_TO_AGENT
            awaiting_briefing_completion := true },
   [Cmd.queueFrames
      [WFrame.llmMessagesAppend
        [{ role := "system"
           content := briefingText s.transfer_summary
             config.transfer_messages.connecting_message }] true]])

/-- `TransferCoordinator.handle_dialout_error`: push hold off, queue the
failure message, and (after transiting `TRANSFER_FAILED` inside the
handler) end in `TALKING_TO_CUSTOMER` with target and summary cleared. -/
def TransferCoordinator.handle_dialout_error (config : WarmTransferConfig)
    (s : CoordState) : CoordState × List Cmd :=
  ({ s with state := TransferState.TALKING_TO_CUSTOMER
            transfer_target := none
            transfer_summary := none },
   [Cmd.pushFrame (WFrame.customerHold false),
    Cmd.queueFrames
      [WFrame.llmMessagesAppend
        [{ role := "system"
           content := config.transfer_messages.transfer_failed_message }] true]])

-- ------------ daily-pstn-warm-transfer/bot.py : initiate_warm_transfer ------------

/-- Python's `str.lower()` on the characters of a string. -/
def pyLower (s : String) : String :=
  ⟨s.data.map Char.toLower⟩

/-- The case-insensitive target lookup in `initiate_warm_transfer`:
`next((t for t in targets if t.name.lower() == target_name.lower()), None)`. -/
def findTarget (targets : List TransferTarget) (target_name : String) :
    Option TransferTarget :=
  targets.find? (fun t => pyLower t.name == pyLower target_name)

/-- The corrective message `initiate_warm_transfer` sends to the LLM on an
unknown target name, listing the configured target names. -/
def correctiveMessage (config : WarmTransferConfig) (target_name : String) : String :=
  "Transfer target \x27" ++ target_name ++ "\x27 not found. Available targets are: "
    ++ String.intercalate ", " (config.transfer_targets.map (fun t => t.name))
    ++ ". Please try again with a valid target name."

/-- `initiate_warm_transfer` (function-call handler): on a lookup miss it
pushes exactly one corrective LLM message; on a hit it pushes the hold
message and queues a `StartTransferFrame` for the coordinator. -/
def initiate_warm_transfer (config : WarmTransferConfig)
    (target_name summary : String) : List Cmd :=
  match findTarget config.transfer_targets target_name with
  | none =>
      [Cmd.pushFrame
        (WFrame.llmMessagesAppend
          [{ role := "system", content := correctiveMessage config target_name }] true)]
  | some target =>
      [Cmd.pushFrame
        (WFrame.llmMessagesAppend
          [{ role := "system", content := config.transfer_messages.hold_message }] true),
       Cmd.queueFrames [WFrame.startTransfer target summary]]

-- ------------ daily-pstn-warm-transfer/bot.py : session wiring ------------

/-- Session state of the warm-transfer bot: the coordinator, the two gates
of the pipeline (`customer_hold_gate`, `bot_audio_gate`), and whether the
pipeline task has been cancelled. -/
structure Session where
  coord : CoordState
  customer_hold_gate : Bool
  bot_audio_gate : Bool
  cancelled : Bool
  deriving DecidableEq, Repr

/-- Initial session of `run_bot` (warm-transfer bot): fresh coordinator,
both gates off hold, task live. -/
def Session.init : Session where
  coord := CoordState.init
  customer_hold_gate := false
  bot_audio_gate := false
  cancelled := false

/-- The processors of the warm-transfer pipeline, in the order they are
wired in `run_bot` of `daily-pstn-warm-transfer/bot.py`. -/
inductive Processor where
  | transportInput
  | customerHoldGate
  | stt
  | userAggregator
  | llm
  | tts
  | botAudioGate
  | transferCoordinator
  | transportOutput
  | assistantAggregator
  deriving DecidableEq, Repr

/-- The `Pipeline([...])` wiring of `run_bot`: both gates sit upstream of
the transfer coordinator. -/
def pipeline : List Processor :=
  [Processor.transportInput, Processor.customerHoldGate, Processor.stt,
   Processor.userAggregator, Processor.llm, Processor.tts,
   Processor.botAudioGate, Processor.transferCoordinator,
   Processor.transportOutput, Processor.assistantAggregator]

/-- The processors that receive a frame pushed by `p` with
`FrameProcessor.push_frame`'s default DOWNSTREAM direction: those strictly
after `p` in the pipeline. -/
def downstreamReceivers (p : Processor) : List Processor :=
  (pipeline.dropWhile (fun q => q != p)).drop 1

/-- The session-level events of the warm-transfer bot: a frame reaching the
coordinator, the transport events handled in `run_bot`
(`on_dialout_answered`, `on_dialout_error`, `on_participant_left` with the
leaving participant's id), and an `initiate_warm_transfer` function call. -/
inductive WEvent where
  | frame (f : WFrame)
  | dialoutAnswered
  | dialoutError
  | participantLeft (participant : String)
  | initiateTransfer (target_name : String) (summary : String)
  deriving DecidableEq, Repr

/-- One session-level event of the warm-transfer bot.  A cancelled task
receives no further events.  Frames pushed by the coordinator travel with
the default DOWNSTREAM direction, i.e. only to
`downstreamReceivers Processor.transferCoordinator` (the output transport
and the assistant aggregator); both gates are wired upstream of the
coordinator, so no pushed `CustomerHoldFrame` ever reaches a gate and the
gate flags are unchanged.  `on_participant_left` cancels the task
whichever participant left.  An `initiateTransfer` hit queues a
`StartTransferFrame`, which flows from the head of the pipeline to the
coordinator (passing both gates unchanged, as neither reacts to it). -/
def sessionStep (config : WarmTransferConfig) (s : Session) (e : WEvent) :
    Session × List Cmd :=
  if s.cancelled = true then (s, []) else
  match e with
  | WEvent.frame f =>
      let r := TransferCoordinator.process_frame s.coord f
      ({ s with coord := r.1 }, r.2)
  | WEvent.dialoutAnswered =>
      let r := TransferCoordinator.handle_dialout_answered config s.coord
      ({ s with coord := r.1 }, r.2)
  | WEvent.dialoutError =>
      let r := TransferCoordinator.handle_dialout_error config s.coord
      ({ s with coord := r.1 }, r.2)
  | WEvent.participantLeft _ =>
      ({ s with cancelled := true }, [Cmd.cancelTask])
  | WEvent.initiateTransfer target_name summary =>
      let cmds := initiate_warm_transfer config target_name summary
      match findTarget config.transfer_targets target_name with
      | none => (s, cmds)
      | some target =>
          let r := TransferCoordinator.process_frame s.coord
                     (WFrame.startTransfer target summary)
          ({ s with coord := r.1 }, cmds ++ r.2)

/-- Run the warm-transfer session over a list of events, accumulating the
issued commands. -/
def sessionRun (config : WarmTransferConfig) (s : Session) :
    List WEvent → Session × List Cmd
  | [] => (s, [])
  | e :: es =>
      let r1 := sessionStep config s e
      let r2 := sessionRun config r1.1 es
      (r2.1, r1.2 ++ r2.2)

/-- The sessions reachable from the initial warm-transfer session under a
fixed configuration. -/
inductive Reachable (config : WarmTransferConfig) : Session → Prop where
  | init : Reachable config Session.init
  | step (s : Session) (e : WEvent) :
      Reachable config s → Reachable config (sessionStep config s e).1

-- ------------ concrete fixtures ------------

/-- A session holding the customer, waiting for the hold message to finish,
with the default sales target stored. -/
def holdingSession : Session where
  coord :=
    { state := TransferState.HOLDING_CUSTOMER
      awaiting_hold_message_completion := true
      awaiting_briefing_completion := false
      transfer_target := some salesTarget
      transfer_summary := some "billing question" }
  customer_hold_gate := false
  bot_audio_gate := false
  cancelled := false

/-- A session holding the customer on hold (hold already active, dialing),
with the default sales target stored. -/
def dialingSession : Session where
  coord :=
    { state := TransferState.HOLDING_CUSTOMER
      awaiting_hold_message_completion := false
      awaiting_briefing_completion := false
      transfer_target := some salesTarget
      transfer_summary := some "billing question" }
  customer_hold_gate := true
  bot_audio_gate := true
  cancelled := false

/-- A session whose transfer completed: customer and specialist connected. -/
def connectedSession : Session where
  coord :=
    { state := TransferState.CONNECTED
      awaiting_hold_message_completion := false
      awaiting_briefing_completion := false
      transfer_target := some salesTarget
      transfer_summary := some "billing question" }
  customer_hold_gate := false
  bot_audio_gate := false
  cancelled := false

/-- The happy-path event trace (spec scenario A): initiate a transfer to
the sales team, finish the hold message, agent answers, finish the
briefing. -/
def happyPathEvents : List WEvent :=
  [WEvent.initiateTransfer "Sales Team" "billing question",
   WEvent.frame WFrame.botStoppedSpeaking,
   WEvent.dialoutAnswered,
   WEvent.frame WFrame.botStoppedSpeaking]

/-- The cleared-outside-the-transfer-window property of a warm-transfer
session: while talking to the customer, no transfer target or summary is
stored. -/
def TalkingCleared (s : Session) : Prop :=
  s.coord.state = TransferState.TALKING_TO_CUSTOMER →
    s.coord.transfer_target = none ∧ s.coord.transfer_summary = none

-- ------------ helper lemmas : dial-out bot ------------

theorem startDialouts_append (a b : List Cmd) :
    startDialouts (a ++ b) = startDialouts a ++ startDialouts b := by
  induction a with
  | nil => rfl
  | cons c rest ih =>
      cases c <;> simp [startDialouts, ih]

theorem attempt_dialout_max (m : DialoutManager) :
    m.attempt_dialout.2.1.max_retries = m.max_retries := by
  unfold DialoutManager.attempt_dialout
  split
  · rfl
  · split <;> rfl

theorem attempt_dialout_phone (m : DialoutManager) :
    m.attempt_dialout.2.1.phone_number = m.phone_number := by
  unfold DialoutManager.attempt_dialout
  split
  · rfl
  · split <;> rfl

theorem attempt_dialout_count (m : DialoutManager) :
    m.attempt_dialout.2.1.attempt_count
      = m.attempt_count + (startDialouts m.attempt_dialout.2.2).length := by
  unfold DialoutManager.attempt_dialout
  split
  · simp [startDialouts]
  · split
    · simp [startDialouts]
    · simp [startDialouts]

theorem attempt_dialout_le (m : DialoutManager)
    (h : m.attempt_count ≤ m.max_retries) :
    m.attempt_dialout.2.1.attempt_count ≤ m.max_retries := by
  unfold DialoutManager.attempt_dialout
  split
  · exact h
  · split
    · exact h
    · simp only []
      omega

theorem dialoutStep_invariant (s : DialSession) (e : DEvent)
    (h : s.manager.attempt_count ≤ s.manager.max_retries) :
    (dialoutStep s e).1.manager.max_retries = s.manager.max_retries ∧
    (dialoutStep s e).1.manager.attempt_count ≤ s.manager.max_retries ∧
    (dialoutStep s e).1.manager.attempt_count
      = s.manager.attempt_count + (startDialouts (dialoutStep s e).2).length := by
  unfold dialoutStep DialoutManager.attempt_dialout DialoutManager.mark_successful
  cases e <;> repeat' split
  all_goals simp_all [startDialouts]
  all_goals omega

theorem dialoutRun_bound (es : List DEvent) (s : DialSession)
    (h : s.manager.attempt_count ≤ s.manager.max_retries) :
    (dialoutRun s es).1.manager.max_retries = s.manager.max_retries ∧
    (dialoutRun s es).1.manager.attempt_count ≤ s.manager.max_retries ∧
    (dialoutRun s es).1.manager.attempt_count
      = s.manager.attempt_count + (startDialouts (dialoutRun s es).2).length := by
  induction es generalizing s with
  | nil => simpa [dialoutRun, startDialouts] using h
  | cons e es ih =>
      obtain ⟨hmax, hle, hcount⟩ := dialoutStep_invariant s e h
      obtain ⟨ihmax, ihle, ihcount⟩ := ih (dialoutStep s e).1 (hmax ▸ hle)
      refine ⟨by simp [dialoutRun, ihmax, hmax], ?_, ?_⟩
      · simp only [dialoutRun]
        exact le_trans ihle (le_of_eq hmax)
      · simp only [dialoutRun, startDialouts_append, List.length_append]
        omega

-- ------------ claim theorems : dial-out bot ------------

/-- C2: over every sequence of transport events delivered to a dial-out
session (dial-error retries included), the number of `start-dial` commands
issued never exceeds `max_retries`, whose default is 5; and once the
attempt counter has reached `max_retries`, `attempt_dialout` returns
`False` and issues no start-dial command and no state change. -/
theorem C2_retry_bound :
    (∀ (phone : String) (es : List DEvent),
      (startDialouts (dialoutRun (DialSession.init phone) es).2).length
        ≤ DialoutManager.defaultMaxRetries) ∧
    DialoutManager.defaultMaxRetries = 5 ∧
    (∀ m : DialoutManager, m.max_retries ≤ m.attempt_count →
      m.attempt_dialout = (false, m, [])) := by
  refine ⟨?_, rfl, ?_⟩
  · intro phone es
    obtain ⟨hmax, hle, hcount⟩ :=
      dialoutRun_bound es (DialSession.init phone) (Nat.zero_le _)
    have h0 : (DialSession.init phone).manager.attempt_count = 0 := rfl
    have hm : (DialSession.init phone).manager.max_retries
        = DialoutManager.defaultMaxRetries := rfl
    rw [h0, Nat.zero_add] at hcount
    rw [hm] at hle
    omega
  · intro m hm
    unfold DialoutManager.attempt_dialout
    rw [if_pos hm]

/-- C2 witness: a concrete dial-out session that joins and then receives
six dial-error events issues at most five start-dial commands, and a
manager whose counter has reached the default budget refuses to dial. -/
theorem C2_retry_bound_witness :
    (startDialouts (dialoutRun (DialSession.init "+15551234567")
        [DEvent.joined, DEvent.dialout_error, DEvent.dialout_error,
         DEvent.dialout_error, DEvent.dialout_error, DEvent.dialout_error,
         DEvent.dialout_error]).2).length ≤ DialoutManager.defaultMaxRetries ∧
    DialoutManager.attempt_dialout
        { phone_number := "+15551234567", max_retries := 5,
          attempt_count := 5, is_successful := false }
      = (false,
         { phone_number := "+15551234567", max_retries := 5,
           attempt_count := 5, is_successful := false }, []) :=
  ⟨C2_retry_bound.1 "+15551234567"
      [DEvent.joined, DEvent.dialout_error, DEvent.dialout_error,
       DEvent.dialout_error, DEvent.dialout_error, DEvent.dialout_error,
       DEvent.dialout_error],
   C2_retry_bound.2.2
      { phone_number := "+15551234567", max_retries := 5,
        attempt_count := 5, is_successful := false } (by decide)⟩

/-- C3: for every manager whose attempt count does not exceed the maximum,
after `mark_successful` every `attempt_dialout` call returns `False`,
leaves the manager unchanged, and issues no start-dial command; and
`mark_successful` is idempotent. -/
theorem C3_mark_successful_freezes (m : DialoutManager)
    (h : m.attempt_count ≤ m.max_retries) :
    m.mark_successful.attempt_dialout = (false, m.mark_successful, []) ∧
    m.mark_successful.mark_successful = m.mark_successful := by
  refine ⟨?_, rfl⟩
  unfold DialoutManager.attempt_dialout DialoutManager.mark_successful
  split
  · rfl
  · rfl

/-- C3 witness: the freshly initialised manager, marked successful, refuses
further dial attempts without side effects. -/
theorem C3_mark_successful_freezes_witness :
    (DialoutManager.init "+15551234567").mark_successful.attempt_dialout
      = (false, (DialoutManager.init "+15551234567").mark_successful, []) ∧
    (DialoutManager.init "+15551234567").mark_successful.mark_successful
      = (DialoutManager.init "+15551234567").mark_successful :=
  C3_mark_successful_freezes (DialoutManager.init "+15551234567") (by decide)

-- ------------ claim theorems : hold gate ------------

/-- C8: while on hold the customer hold gate suppresses caller audio
input, speech-started and interruption frames; it never suppresses
speech-stopped frames, which pass unchanged; and while hold is off every
frame passes through. -/
theorem C8_hold_gate_suppression (on_hold : Bool) (f : WFrame) :
    (on_hold = true →
      f = WFrame.inputAudioRaw ∨ f = WFrame.userStartedSpeaking
        ∨ f = WFrame.interruption →
      (CustomerHoldGate.process_frame on_hold f).2 = []) ∧
    ((CustomerHoldGate.process_frame on_hold WFrame.userStoppedSpeaking).2
      = [WFrame.userStoppedSpeaking]) ∧
    (on_hold = false → f ∈ (CustomerHoldGate.process_frame on_hold f).2) := by
  refine ⟨?_, ?_, ?_⟩
  · rintro rfl (rfl | rfl | rfl) <;> rfl
  · cases on_hold <;> rfl
  · rintro rfl
    cases f <;> simp [CustomerHoldGate.process_frame, isCallerInputFrame]

/-- C8 witness: with hold on, a caller audio frame is suppressed and a
speech-stopped frame passes; with hold off, the caller audio frame
passes. -/
theorem C8_hold_gate_suppression_witness :
    (CustomerHoldGate.process_frame true WFrame.inputAudioRaw).2 = [] ∧
    (CustomerHoldGate.process_frame true WFrame.userStoppedSpeaking).2
      = [WFrame.userStoppedSpeaking] ∧
    WFrame.inputAudioRaw
      ∈ (CustomerHoldGate.process_frame false WFrame.inputAudioRaw).2 :=
  ⟨(C8_hold_gate_suppression true WFrame.inputAudioRaw).1 rfl (Or.inl rfl),
   (C8_hold_gate_suppression true WFrame.userStoppedSpeaking).2.1,
   (C8_hold_gate_suppression false WFrame.inputAudioRaw).2.2 rfl⟩

-- ------------ claim theorems : warm-transfer coordinator ------------

/-- C1 (code bug): at the failing input — the holding session, awaiting
hold-message completion with the sales target stored, receiving
`BotStoppedSpeakingFrame` — the coordinator clears the awaiting flag,
stays in `HOLDING_CUSTOMER`, and issues exactly one start-dial with the
stored target's phone number; but the `CustomerHoldFrame(on_hold=True)` it
pushes travels DOWNSTREAM, and neither gate is among the coordinator's
downstream receivers, so no STT-mute and no mixer-enable is ever emitted
and both gates stay off hold — the caller is never muted and the
hold-music mixer never enabled, contrary to the claim, the spec, and the
gates' own docstrings. -/
theorem C1_hold_divergence :
    (sessionStep default_transfer_config holdingSession
        (WEvent.frame WFrame.botStoppedSpeaking)).1.coord.awaiting_hold_message_completion = false ∧
    (sessionStep default_transfer_config holdingSession
        (WEvent.frame WFrame.botStoppedSpeaking)).1.coord.state = TransferState.HOLDING_CUSTOMER ∧
    startDialouts (sessionStep default_transfer_config holdingSession
        (WEvent.frame WFrame.botStoppedSpeaking)).2 = [salesTarget.phone_number] ∧
    Cmd.pushFrame (WFrame.customerHold true)
      ∈ (sessionStep default_transfer_config holdingSession
          (WEvent.frame WFrame.botStoppedSpeaking)).2 ∧
    downstreamReceivers Processor.transferCoordinator
      = [Processor.transportOutput, Processor.assistantAggregator] ∧
    Processor.customerHoldGate ∉ downstreamReceivers Processor.transferCoordinator ∧
    Processor.botAudioGate ∉ downstreamReceivers Processor.transferCoordinator ∧
    (sessionStep default_transfer_config holdingSession
        (WEvent.frame WFrame.botStoppedSpeaking)).1.customer_hold_gate = false ∧
    (sessionStep default_transfer_config holdingSession
        (WEvent.frame WFrame.botStoppedSpeaking)).1.bot_audio_gate = false ∧
    Cmd.pushFrame (WFrame.sttMute true)
      ∉ (sessionStep default_transfer_config holdingSession
          (WEvent.frame WFrame.botStoppedSpeaking)).2 ∧
    Cmd.pushFrame (WFrame.mixerEnable true)
      ∉ (sessionStep default_transfer_config holdingSession
          (WEvent.frame WFrame.botStoppedSpeaking)).2 := by
  decide

/-- C4 (code bug): at the failing input — the dialing session receiving a
`DialoutError` — the handler queues the configured failure message, clears
target and summary, resets to `TALKING_TO_CUSTOMER` and does not terminate
the session; but the `CustomerHoldFrame(on_hold=False)` it pushes travels
DOWNSTREAM, and neither gate is among the coordinator's downstream
receivers, so no mixer-disable and no STT-unmute is ever emitted and the
gate flags are unchanged — the hold-music mixer is not disabled and the
caller not unmuted, contrary to the claim and the spec's rollback. -/
theorem C4_dialout_error_divergence :
    (sessionStep default_transfer_config dialingSession WEvent.dialoutError).1.coord.state
      = TransferState.TALKING_TO_CUSTOMER ∧
    (sessionStep default_transfer_config dialingSession WEvent.dialoutError).1.coord.transfer_target = none ∧
    (sessionStep default_transfer_config dialingSession WEvent.dialoutError).1.coord.transfer_summary = none ∧
    (sessionStep default_transfer_config dialingSession WEvent.dialoutError).1.cancelled = false ∧
    Cmd.cancelTask ∉ (sessionStep default_transfer_config dialingSession WEvent.dialoutError).2 ∧
    Cmd.queueFrames
        [WFrame.llmMessagesAppend
          [{ role := "system",
             content := default_transfer_config.transfer_messages.transfer_failed_message }] true]
      ∈ (sessionStep default_transfer_config dialingSession WEvent.dialoutError).2 ∧
    Cmd.pushFrame (WFrame.customerHold false)
      ∈ (sessionStep default_transfer_config dialingSession WEvent.dialoutError).2 ∧
    Processor.customerHoldGate ∉ downstreamReceivers Processor.transferCoordinator ∧
    Processor.botAudioGate ∉ downstreamReceivers Processor.transferCoordinator ∧
    (sessionStep default_transfer_config dialingSession WEvent.dialoutError).1.customer_hold_gate
      = dialingSession.customer_hold_gate ∧
    (sessionStep default_transfer_config dialingSession WEvent.dialoutError).1.bot_audio_gate
      = dialingSession.bot_audio_gate ∧
    Cmd.pushFrame (WFrame.sttMute false)
      ∉ (sessionStep default_transfer_config dialingSession WEvent.dialoutError).2 ∧
    Cmd.pushFrame (WFrame.mixerEnable false)
      ∉ (sessionStep default_transfer_config dialingSession WEvent.dialoutError).2 := by
  decide

/-- C5: an `initiate_warm_transfer` call from `TALKING_TO_CUSTOMER` whose
target name matches no configured target (case-insensitively) leaves the
session unchanged, issues exactly one corrective message listing the valid
target names, and issues no start-dial and no hold command. -/
theorem C5_unknown_target_noop (config : WarmTransferConfig) (s : Session)
    (target_name summary : String)
    (hc : s.cancelled = false)
    (hs : s.coord.state = TransferState.TALKING_TO_CUSTOMER)
    (hmiss : findTarget config.transfer_targets target_name = none) :
    (sessionStep config s (WEvent.initiateTransfer target_name summary)).1 = s ∧
    (sessionStep config s (WEvent.initiateTransfer target_name summary)).2
      = [Cmd.pushFrame
          (WFrame.llmMessagesAppend
            [{ role := "system", content := correctiveMessage config target_name }] true)] ∧
    startDialouts (sessionStep config s (WEvent.initiateTransfer target_name summary)).2 = [] ∧
    (∀ b : Bool, Cmd.pushFrame (WFrame.customerHold b)
      ∉ (sessionStep config s (WEvent.initiateTransfer target_name summary)).2) := by
  simp [sessionStep, hc, hmiss, initiate_warm_transfer, startDialouts]

/-- C5 witness: transferring to the unknown "Nonexistent Team" from the
initial session is a no-op apart from one corrective message. -/
theorem C5_unknown_target_noop_witness :
    (sessionStep default_transfer_config Session.init (WEvent.initiateTransfer "Nonexistent Team" "x")).1 = Session.init ∧
    (sessionStep default_transfer_config Session.init (WEvent.initiateTransfer "Nonexistent Team" "x")).2
      = [Cmd.pushFrame
          (WFrame.llmMessagesAppend
            [{ role := "system",
               content := correctiveMessage default_transfer_config "Nonexistent Team" }] true)] ∧
    startDialouts (sessionStep default_transfer_config Session.init (WEvent.initiateTransfer "Nonexistent Team" "x")).2 = [] ∧
    Cmd.pushFrame (WFrame.customerHold true)
      ∉ (sessionStep default_transfer_config Session.init (WEvent.initiateTransfer "Nonexistent Team" "x")).2 ∧
    Cmd.pushFrame (WFrame.customerHold false)
      ∉ (sessionStep default_transfer_config Session.init (WEvent.initiateTransfer "Nonexistent Team" "x")).2 :=
  ⟨(C5_unknown_target_noop default_transfer_config Session.init "Nonexistent Team" "x" rfl rfl (by decide)).1,
   (C5_unknown_target_noop default_transfer_config Session.init "Nonexistent Team" "x" rfl rfl (by decide)).2.1,
   (C5_unknown_target_noop default_transfer_config Session.init "Nonexistent Team" "x" rfl rfl (by decide)).2.2.1,
   (C5_unknown_target_noop default_transfer_config Session.init "Nonexistent Team" "x" rfl rfl (by decide)).2.2.2 true,
   (C5_unknown_target_noop default_transfer_config Session.init "Nonexistent Team" "x" rfl rfl (by decide)).2.2.2 false⟩

/-- C6 counterexample: in the concrete dialing session (hold active, sales
target stored), `on_dialout_answered` leaves both gates on hold and issues
no mixer-disable and no hold-off command — the hold-music mixer is not
disabled, contrary to the claim. -/
theorem C6_counterexample :
    ¬ ((sessionStep default_transfer_config dialingSession WEvent.dialoutAnswered).1.bot_audio_gate = false ∨
       Cmd.pushFrame (WFrame.mixerEnable false)
         ∈ (sessionStep default_transfer_config dialingSession WEvent.dialoutAnswered).2 ∨
       Cmd.pushFrame (WFrame.customerHold false)
         ∈ (sessionStep default_transfer_config dialingSession WEvent.dialoutAnswered).2) := by
  decide

/-- C6 (amended): a `DialoutAnswered` event in `HOLDING_CUSTOMER` with a
stored summary moves the state to `TALKING_TO_AGENT`, sets the
awaiting-briefing flag, queues exactly one briefing message built from the
stored summary and the configured connecting message, and leaves the hold
gates (and hence the hold-music mixer) unchanged; the warm-transfer bot has
no dial-out manager, so no success marking occurs. -/
theorem C6_amended (config : WarmTransferConfig) (s : Session) (summary : String)
    (hc : s.cancelled = false)
    (hs : s.coord.state = TransferState.HOLDING_CUSTOMER)
    (hsum : s.coord.transfer_summary = some summary) :
    (sessionStep config s WEvent.dialoutAnswered).1.coord.state = TransferState.TALKING_TO_AGENT ∧
    (sessionStep config s WEvent.dialoutAnswered).1.coord.awaiting_briefing_completion = true ∧
    (sessionStep config s WEvent.dialoutAnswered).1.bot_audio_gate = s.bot_audio_gate ∧
    (sessionStep config s WEvent.dialoutAnswered).1.customer_hold_gate = s.customer_hold_gate ∧
    (sessionStep config s WEvent.dialoutAnswered).2
      = [Cmd.queueFrames
          [WFrame.llmMessagesAppend
            [{ role := "system",
               content := briefingText (some summary)
                 config.transfer_messages.connecting_message }] true]] := by
  simp [sessionStep, hc, TransferCoordinator.handle_dialout_answered, hsum]

/-- C6 (amended) witness: the concrete dialing session is briefed on
answer. -/
theorem C6_amended_witness :
    (sessionStep default_transfer_config dialingSession WEvent.dialoutAnswered).1.coord.state = TransferState.TALKING_TO_AGENT ∧
    (sessionStep default_transfer_config dialingSession WEvent.dialoutAnswered).1.coord.awaiting_briefing_completion = true ∧
    (sessionStep default_transfer_config dialingSession WEvent.dialoutAnswered).1.bot_audio_gate = dialingSession.bot_audio_gate ∧
    (sessionStep default_transfer_config dialingSession WEvent.dialoutAnswered).1.customer_hold_gate = dialingSession.customer_hold_gate ∧
    (sessionStep default_transfer_config dialingSession WEvent.dialoutAnswered).2
      = [Cmd.queueFrames
          [WFrame.llmMessagesAppend
            [{ role := "system",
               content := briefingText (some "billing question")
                 default_transfer_config.transfer_messages.connecting_message }] true]] :=
  C6_amended default_transfer_config dialingSession "billing question" rfl rfl rfl

-- ------------ helper lemmas : warm-transfer state invariant ------------

theorem holdCompletionStep_preserves (s : CoordState) (f : WFrame) :
    (TransferCoordinator.holdCompletionStep s f).1.state = s.state ∧
    (TransferCoordinator.holdCompletionStep s f).1.transfer_target = s.transfer_target ∧
    (TransferCoordinator.holdCompletionStep s f).1.transfer_summary = s.transfer_summary := by
  unfold TransferCoordinator.holdCompletionStep
  repeat' split
  all_goals simp_all

theorem briefingCompletionStep_preserves (s : CoordState) (f : WFrame) :
    (TransferCoordinator.briefingCompletionStep s f).1.transfer_target = s.transfer_target ∧
    (TransferCoordinator.briefingCompletionStep s f).1.transfer_summary = s.transfer_summary ∧
    ((TransferCoordinator.briefingCompletionStep s f).1.state = s.state ∨
     (TransferCoordinator.briefingCompletionStep s f).1.state = TransferState.CONNECTED) := by
  unfold TransferCoordinator.briefingCompletionStep
  split
  all_goals simp_all

theorem seq_talking (s : CoordState) (f : WFrame)
    (h : (TransferCoordinator.briefingCompletionStep
            (TransferCoordinator.holdCompletionStep s f).1 f).1.state
          = TransferState.TALKING_TO_CUSTOMER) :
    (TransferCoordinator.briefingCompletionStep
        (TransferCoordinator.holdCompletionStep s f).1 f).1.transfer_target
      = s.transfer_target ∧
    (TransferCoordinator.briefingCompletionStep
        (TransferCoordinator.holdCompletionStep s f).1 f).1.transfer_summary
      = s.transfer_summary ∧
    s.state = TransferState.TALKING_TO_CUSTOMER := by
  obtain ⟨h1, h2, h3⟩ := holdCompletionStep_preserves s f
  obtain ⟨g1, g2, g3⟩ := briefingCompletionStep_preserves
    (TransferCoordinator.holdCompletionStep s f).1 f
  rcases g3 with g3 | g3
  · exact ⟨g1.trans h2, g2.trans h3, by rw [← h1, ← g3]; exact h⟩
  · rw [g3] at h
    exact absurd h (by decide)

theorem process_frame_talking (s : CoordState) (f : WFrame)
    (h : (TransferCoordinator.process_frame s f).1.state = TransferState.TALKING_TO_CUSTOMER) :
    (TransferCoordinator.process_frame s f).1.transfer_target = s.transfer_target ∧
    (TransferCoordinator.process_frame s f).1.transfer_summary = s.transfer_summary ∧
    s.state = TransferState.TALKING_TO_CUSTOMER := by
  cases f with
  | startTransfer t summary => simp [TransferCoordinator.process_frame] at h
  | customerHold b => exact seq_talking s _ h
  | botStoppedSpeaking => exact seq_talking s _ h
  | inputAudioRaw => exact seq_talking s _ h
  | userStartedSpeaking => exact seq_talking s _ h
  | userStoppedSpeaking => exact seq_talking s _ h
  | interruption => exact seq_talking s _ h
  | sttMute b => exact seq_talking s _ h
  | mixerEnable b => exact seq_talking s _ h
  | ttsAudioRaw d => exact seq_talking s _ h
  | outputAudioRaw d => exact seq_talking s _ h
  | llmMessagesAppend msgs b => exact seq_talking s _ h
  | llmRun => exact seq_talking s _ h

theorem sessionStep_talkingCleared (config : WarmTransferConfig)
    (s : Session) (e : WEvent) (h : TalkingCleared s) :
    TalkingCleared (sessionStep config s e).1 := by
  by_cases hc : s.cancelled = true
  · simpa [sessionStep, hc] using h
  · cases e with
    | frame f =>
        intro hst
        simp only [sessionStep, hc, if_neg, Bool.false_eq_true] at hst ⊢
        simp only [if_false] at hst ⊢
        obtain ⟨h1, h2, h3⟩ := process_frame_talking s.coord f hst
        obtain ⟨ht, hsum⟩ := h h3
        exact ⟨h1.trans ht, h2.trans hsum⟩
    | dialoutAnswered =>
        intro hst
        simp [sessionStep, hc, TransferCoordinator.handle_dialout_answered] at hst
    | dialoutError =>
        intro hst
        simp [sessionStep, hc, TransferCoordinator.handle_dialout_error]
    | participantLeft p =>
        intro hst
        simp only [sessionStep, hc] at hst ⊢
        simp only [Bool.false_eq_true, if_false] at hst ⊢
        exact h hst
    | initiateTransfer target_name summary =>
        intro hst
        simp only [sessionStep, hc, Bool.false_eq_true, if_false] at hst ⊢
        cases hft : findTarget config.transfer_targets target_name with
        | none =>
            simp only [hft] at hst ⊢
            exact h hst
        | some target =>
            simp only [hft] at hst
            simp [TransferCoordinator.process_frame] at hst

theorem reachable_sessionRun (config : WarmTransferConfig) (s : Session)
    (es : List WEvent) (h : Reachable config s) :
    Reachable config (sessionRun config s es).1 := by
  induction es generalizing s with
  | nil => exact h
  | cons e es ih => exact ih (sessionStep config s e).1 (Reachable.step s e h)

theorem cancelled_sessionRun (config : WarmTransferConfig)
    (es : List WEvent) (s : Session) (h : s.cancelled = true) :
    sessionRun config s es = (s, []) := by
  induction es with
  | nil => rfl
  | cons e es ih => simp [sessionRun, sessionStep, h, ih]

-- ------------ claim theorems : invariants and cancellation ------------

/-- C7 counterexample: the happy-path trace ends in a reachable `CONNECTED`
session whose stored target and summary are not cleared, contrary to the
claim that they are cleared outside `HOLDING_CUSTOMER`/`TALKING_TO_AGENT`. -/
theorem C7_counterexample :
    Reachable default_transfer_config
      (sessionRun default_transfer_config Session.init happyPathEvents).1 ∧
    (sessionRun default_transfer_config Session.init happyPathEvents).1.coord.state
      = TransferState.CONNECTED ∧
    (sessionRun default_transfer_config Session.init happyPathEvents).1.coord.transfer_target
      = some salesTarget ∧
    (sessionRun default_transfer_config Session.init happyPathEvents).1.coord.transfer_summary
      = some "billing question" :=
  ⟨reachable_sessionRun default_transfer_config Session.init happyPathEvents Reachable.init,
   by decide, by decide, by decide⟩

/-- C7 (amended): in every reachable session whose state is
`TALKING_TO_CUSTOMER`, the stored target and summary are cleared; the
success path keeps them in `CONNECTED`, so the claimed window must exclude
only `TALKING_TO_CUSTOMER` (and the transient `TRANSFER_FAILED`, which is
never a resting state). -/
theorem C7_amended (config : WarmTransferConfig) (s : Session)
    (h : Reachable config s)
    (hs : s.coord.state = TransferState.TALKING_TO_CUSTOMER) :
    s.coord.transfer_target = none ∧ s.coord.transfer_summary = none := by
  suffices key : TalkingCleared s from key hs
  clear hs
  induction h with
  | init => intro _; exact ⟨rfl, rfl⟩
  | step s' e hr ih => exact sessionStep_talkingCleared config s' e ih

/-- C7 (amended) witness: the initial session. -/
theorem C7_amended_witness :
    Session.init.coord.transfer_target = none ∧
    Session.init.coord.transfer_summary = none :=
  C7_amended default_transfer_config Session.init Reachable.init rfl

/-- C9: a participant-left event on a live session cancels the pipeline
task exactly once, terminates the session, and no commands (in particular
no dial attempts) are issued on any subsequent events. -/
theorem C9_customer_left (config : WarmTransferConfig) (s : Session)
    (p : String) (hc : s.cancelled = false) :
    (sessionStep config s (WEvent.participantLeft p)).2 = [Cmd.cancelTask] ∧
    (sessionStep config s (WEvent.participantLeft p)).1.cancelled = true ∧
    ∀ es : List WEvent,
      (sessionRun config (sessionStep config s (WEvent.participantLeft p)).1 es).2 = [] := by
  refine ⟨by simp [sessionStep, hc], by simp [sessionStep, hc], ?_⟩
  intro es
  rw [cancelled_sessionRun config es _ (by simp [sessionStep, hc])]

/-- C9 witness: the customer leaving the concrete mid-transfer dialing
session cancels the task once and silences the session. -/
theorem C9_customer_left_witness :
    (sessionStep default_transfer_config dialingSession (WEvent.participantLeft "customer")).2 = [Cmd.cancelTask] ∧
    (sessionStep default_transfer_config dialingSession (WEvent.participantLeft "customer")).1.cancelled = true ∧
    (sessionRun default_transfer_config
        (sessionStep default_transfer_config dialingSession (WEvent.participantLeft "customer")).1
        [WEvent.frame WFrame.botStoppedSpeaking, WEvent.dialoutAnswered]).2 = [] :=
  ⟨(C9_customer_left default_transfer_config dialingSession "customer" rfl).1,
   (C9_customer_left default_transfer_config dialingSession "customer" rfl).2.1,
   (C9_customer_left default_transfer_config dialingSession "customer" rfl).2.2
      [WEvent.frame WFrame.botStoppedSpeaking, WEvent.dialoutAnswered]⟩

/-- C10: `on_participant_left` ignores which participant left — the caller
and the dialed specialist trigger the identical step — and it cancels the
pipeline task, ending the whole session. -/
theorem C10_any_participant (config : WarmTransferConfig) (s : Session)
    (p q : String) (hc : s.cancelled = false) :
    sessionStep config s (WEvent.participantLeft p)
      = sessionStep config s (WEvent.participantLeft q) ∧
    (sessionStep config s (WEvent.participantLeft p)).1.cancelled = true ∧
    (sessionStep config s (WEvent.participantLeft p)).2 = [Cmd.cancelTask] := by
  refine ⟨rfl, by simp [sessionStep, hc], by simp [sessionStep, hc]⟩

/-- C10 witness: in the connected session, the specialist hanging up acts
exactly like the customer hanging up: the task is cancelled. -/
theorem C10_any_participant_witness :
    sessionStep default_transfer_config connectedSession (WEvent.participantLeft "customer")
      = sessionStep default_transfer_config connectedSession (WEvent.participantLeft "sales specialist") ∧
    (sessionStep default_transfer_config connectedSession (WEvent.participantLeft "customer")).1.cancelled = true ∧
    (sessionStep default_transfer_config connectedSession (WEvent.participantLeft "customer")).2 = [Cmd.cancelTask] :=
  C10_any_participant default_transfer_config connectedSession "customer" "sales specialist" rfl
